import Mathlib

/-
Verification of the signon handshake orchestrator (src/service/signon.js).

The orchestrator drives a two-phase binary handshake: a seed exchange
followed by a credential ("info") submission.  Inbound replies are raw byte
buffers; the handlers validate a 24-byte minimum length, inspect a status
code, and either update the negotiation state / produce session attributes
or reject with a descriptive error message.

Bytes are modelled as `List Nat`; the reply-packet field extractors and the
password encryptor live in repository files that are not available here, so
they are modelled from the spec (each such definition says so in its doc
comment).  The orchestration logic itself is translated directly from
`signon.js`.
-/

namespace Ibmi

/-- Read one byte of an inbound buffer; a read past the end yields 0. -/
def get8 (data : List Nat) (i : Nat) : Nat := data.getD i 0

/-- Big-endian 16-bit read at byte offset `i`. -/
def get16 (data : List Nat) (i : Nat) : Nat :=
  get8 data i * 256 + get8 data (i + 1)

/-- Big-endian 32-bit read at byte offset `i`. -/
def get32 (data : List Nat) (i : Nat) : Nat :=
  get8 data i * 16777216 + get8 data (i + 1) * 65536 +
    get8 data (i + 2) * 256 + get8 data (i + 3)

/-- The mutable per-handshake negotiation state carried on the `system`
object (`this.system` in `signon.js`): host name, request credentials, and
the fields written by the seed-exchange handler. -/
structure SystemState where
  hostName : String
  userId : String
  password : String
  serverLevel : Nat
  serverVersion : Nat
  passwordLevel : Nat
  passwordAttributesSet : Bool
deriving Repr, DecidableEq

/-- The session-attributes object built by `handleInfoResponse` on success.
It has exactly the six documented fields and nothing else. -/
structure SessionAttributes where
  serverCCSID : Nat
  currentSignonDate : List Nat
  lastSignonDate : List Nat
  passwordExpirationDate : List Nat
  expirationWarning : Nat
  userId : List Nat
deriving Repr, DecidableEq

namespace SignonSeedExchangeResponse

/-- Modelled from the spec: `SignonSeedExchangeResponse` (src/packet/signon-seed-exchange,
not under src/) reads the status code of the reply frame.  The spec leaves the exact
offsets open; the status code is taken as the 32-bit big-endian word right after the
20-byte frame header. -/
def rc (data : List Nat) : Nat := get32 data 20

/-- Modelled from the spec: the server version field of the seed-exchange reply. -/
def serverVersion (data : List Nat) : Nat := get32 data 24

/-- Modelled from the spec: the server level field of the seed-exchange reply. -/
def serverLevel (data : List Nat) : Nat := get16 data 28

/-- Modelled from the spec: the password level field of the seed-exchange reply. -/
def passwordLevel (data : List Nat) : Nat := get8 data 30

/-- Modelled from the spec: the server seed carried by the seed-exchange reply. -/
def serverSeed (data : List Nat) : List Nat := (data.drop 31).take 8

end SignonSeedExchangeResponse

namespace SignonInfoResponse

/-- Modelled from the spec: `SignonInfoResponse` (src/packet/signon-info, not under
src/) reads the status code of the info reply frame, at the same header-relative
offset as the seed-exchange reply. -/
def rc (data : List Nat) : Nat := get32 data 20

/-- Modelled from the spec: the server CCSID field of the info reply. -/
def serverCCSID (data : List Nat) : Nat := get32 data 24

/-- Modelled from the spec: the current signon timestamp of the info reply. -/
def currentSignonDate (data : List Nat) : List Nat := (data.drop 28).take 8

/-- Modelled from the spec: the last signon timestamp of the info reply. -/
def lastSignonDate (data : List Nat) : List Nat := (data.drop 36).take 8

/-- Modelled from the spec: the password expiration timestamp of the info reply. -/
def passwordExpirationDate (data : List Nat) : List Nat := (data.drop 44).take 8

/-- Modelled from the spec: the expiration-warning field of the info reply. -/
def expirationWarning (data : List Nat) : Nat := get16 data 52

/-- Modelled from the spec: the canonical user id returned by the host in the
info reply.  It is a function of the reply bytes only. -/
def userId (data : List Nat) : List Nat := (data.drop 54).take 10

end SignonInfoResponse

namespace SignonErrors

/-- `SignonErrors.get` from `signon.js`: static, total mapping from a numeric
status code to a message; unrecognized codes fall through to a generic
message. -/
def get (id : Nat) : String :=
  if id = 0x00010008 then "Password length not valid"
  else if id = 0x00020001 then "Unknown user ID"
  else if id = 0x00020002 then "User ID is disabled"
  else if id = 0x0003000B then "Incorrect password"
  else if id = 0x0003000C then
    "Incorrect password, user ID will be disabled on the next incorrect password"
  else "Unknown error"

end SignonErrors

namespace Signon

/-- `Signon.handleSeedExchangeResponse` from `signon.js`: the phase-1 reply
handler.  It returns the (possibly updated) system state together with the
outcome: the server seed on success, an error message otherwise. -/
def handleSeedExchangeResponse (sys : SystemState) (data : List Nat) :
    SystemState × Except String (List Nat) :=
  if data.length < 24 then
    (sys, Except.error ("Invalid seed exchange response received from " ++ sys.hostName))
  else if SignonSeedExchangeResponse.rc data ≠ 0 then
    (sys, Except.error ("Error received during signon seed exchange with " ++ sys.hostName
      ++ " : " ++ toString (SignonSeedExchangeResponse.rc data)))
  else
    ({ sys with
        serverLevel := SignonSeedExchangeResponse.serverLevel data,
        serverVersion := SignonSeedExchangeResponse.serverVersion data,
        passwordLevel := SignonSeedExchangeResponse.passwordLevel data,
        passwordAttributesSet := true },
      Except.ok (SignonSeedExchangeResponse.serverSeed data))

/-- `Signon.handleInfoResponse` from `signon.js`: the phase-2 reply handler.
It never writes the system state; on success it resolves with the
session-attributes object built from the reply. -/
def handleInfoResponse (sys : SystemState) (data : List Nat) :
    Except String SessionAttributes :=
  if data.length < 24 then
    Except.error ("Invalid info response received from " ++ sys.hostName)
  else if SignonInfoResponse.rc data ≠ 0 then
    Except.error ("Error received during signon info with " ++ sys.hostName ++ " : "
      ++ SignonErrors.get (SignonInfoResponse.rc data))
  else
    Except.ok
      { serverCCSID := SignonInfoResponse.serverCCSID data,
        currentSignonDate := SignonInfoResponse.currentSignonDate data,
        lastSignonDate := SignonInfoResponse.lastSignonDate data,
        passwordExpirationDate := SignonInfoResponse.passwordExpirationDate data,
        expirationWarning := SignonInfoResponse.expirationWarning data,
        userId := SignonInfoResponse.userId data }

end Signon

namespace PasswordEncryptor

/-- Modelled from the spec: the Password Encryptor (src/util/password-encryptor,
not under src/) is a pure function of (passwordLevel, userId, password,
clientSeed, serverSeed) producing a credential blob.  The spec leaves the
per-level algorithm a protocol constant, so the blob is modelled as a
deterministic injective-enough encoding of the inputs. -/
def encrypt (passwordLevel : Nat) (userId password : String)
    (clientSeed serverSeed : List Nat) : List Nat :=
  passwordLevel :: (userId.data.map Char.toNat) ++ (password.data.map Char.toNat)
    ++ clientSeed ++ serverSeed

end PasswordEncryptor

/-- Observable events of one `signon()` run, in order: connecting, sending the
seed-exchange request (carrying the freshly generated client seed), invoking
the password encryptor (with the exact arguments it receives), and sending
the info request. -/
inductive Event where
  | connect : Event
  | sendSeedRequest : List Nat → Event
  | encrypt : Nat → String → String → List Nat → List Nat → Event
  | sendInfoRequest : String → List Nat → Nat → Event
deriving Repr, DecidableEq

/-- True exactly on password-encryptor invocation events. -/
def Event.isEncrypt : Event → Bool
  | .encrypt _ _ _ _ _ => true
  | _ => false

/-- True exactly on seed-exchange request sends. -/
def Event.isSeedSend : Event → Bool
  | .sendSeedRequest _ => true
  | _ => false

/-- True exactly on info request sends. -/
def Event.isInfoSend : Event → Bool
  | .sendInfoRequest _ _ _ => true
  | _ => false

/-- One `signon()` run is determined by the environment: whether `connect`
succeeds, the client seed the seed-exchange request generates, and the two
reply buffers the host sends back. -/
structure SignonInput where
  connectOk : Except String Unit
  clientSeed : List Nat
  seedReply : List Nat
  infoReply : List Nat
deriving Repr

/-- `Signon.signon` from `signon.js`, as a function from the environment to
the event trace and the single outcome.  It connects, runs `exchangeSeeds`
(build request, store `this.seed`, send, handle the one reply), then on
success runs `info` (encrypt the credential with the negotiated password
level, the stored client seed and the server seed, send the info request,
handle the one reply).  Any error is propagated unmodified (the `catch`
block in the source logs and rethrows). -/
def signonRun (sys : SystemState) (inp : SignonInput) :
    List Event × Except String SessionAttributes :=
  match inp.connectOk with
  | Except.error e => ([], Except.error e)
  | Except.ok _ =>
    let p := Signon.handleSeedExchangeResponse sys inp.seedReply
    match p.2 with
    | Except.error e =>
        ([Event.connect, Event.sendSeedRequest inp.clientSeed], Except.error e)
    | Except.ok serverSeed =>
        let sys1 := p.1
        let blob := PasswordEncryptor.encrypt sys1.passwordLevel sys1.userId
          sys1.password inp.clientSeed serverSeed
        let tr := [Event.connect, Event.sendSeedRequest inp.clientSeed,
          Event.encrypt sys1.passwordLevel sys1.userId sys1.password
            inp.clientSeed serverSeed,
          Event.sendInfoRequest sys1.userId blob sys1.serverLevel]
        match Signon.handleInfoResponse sys1 inp.infoReply with
        | Except.error e => (tr, Except.error e)
        | Except.ok attrs => (tr, Except.ok attrs)

/-- A concrete system used to instantiate the theorems. -/
def sampleSys : SystemState :=
  { hostName := "myhost", userId := "USER", password := "PW",
    serverLevel := 0, serverVersion := 0, passwordLevel := 0,
    passwordAttributesSet := false }

/-- A concrete successful seed-exchange reply: status 0, server version 7,
server level 5, password level 2, server seed 9..16. -/
def sampleSeedOk : List Nat :=
  List.replicate 20 0 ++ [0, 0, 0, 0] ++ [0, 0, 0, 7] ++ [0, 5] ++ [2] ++
    [9, 10, 11, 12, 13, 14, 15, 16]

/-- A concrete successful info reply: status 0, all numeric fields 0,
user id bytes spelling ALICE. -/
def sampleInfoOk : List Nat :=
  List.replicate 54 0 ++ [65, 76, 73, 67, 69]

/-- A concrete rejected seed-exchange reply: 24 bytes, status 1. -/
def sampleSeedErr : List Nat := List.replicate 20 0 ++ [0, 0, 0, 1]

/-- A concrete rejected info reply: 24 bytes, status 0x0003000B. -/
def sampleInfoErr : List Nat := List.replicate 20 0 ++ [0, 3, 0, 11]

/-- A concrete fully successful run environment. -/
def sampleInpOk : SignonInput :=
  { connectOk := Except.ok (), clientSeed := [1, 2, 3, 4, 5, 6, 7, 8],
    seedReply := sampleSeedOk, infoReply := sampleInfoOk }

/-- A concrete run environment whose seed exchange is rejected. -/
def sampleInpSeedErr : SignonInput :=
  { connectOk := Except.ok (), clientSeed := [1, 2, 3, 4, 5, 6, 7, 8],
    seedReply := sampleSeedErr, infoReply := sampleInfoOk }

/-- A concrete run environment whose connection attempt fails. -/
def sampleInpConnFail : SignonInput :=
  { connectOk := Except.error "boom", clientSeed := [1, 2, 3, 4, 5, 6, 7, 8],
    seedReply := sampleSeedOk, infoReply := sampleInfoOk }

/-- Characterization of the phase-1 handler on a short reply. -/
theorem hseShort (sys : SystemState) (data : List Nat) (h : data.length < 24) :
    Signon.handleSeedExchangeResponse sys data =
      (sys, Except.error ("Invalid seed exchange response received from " ++ sys.hostName)) := by
  simp [Signon.handleSeedExchangeResponse, h]

/-- Characterization of the phase-1 handler on a rejected reply. -/
theorem hseReject (sys : SystemState) (data : List Nat) (h : ¬ data.length < 24)
    (h2 : SignonSeedExchangeResponse.rc data ≠ 0) :
    Signon.handleSeedExchangeResponse sys data =
      (sys, Except.error ("Error received during signon seed exchange with " ++ sys.hostName
        ++ " : " ++ toString (SignonSeedExchangeResponse.rc data))) := by
  simp [Signon.handleSeedExchangeResponse, h, h2]

/-- Characterization of the phase-1 handler on a successful reply. -/
theorem hseOk (sys : SystemState) (data : List Nat) (h : ¬ data.length < 24)
    (h2 : SignonSeedExchangeResponse.rc data = 0) :
    Signon.handleSeedExchangeResponse sys data =
      ({ sys with
          serverLevel := SignonSeedExchangeResponse.serverLevel data,
          serverVersion := SignonSeedExchangeResponse.serverVersion data,
          passwordLevel := SignonSeedExchangeResponse.passwordLevel data,
          passwordAttributesSet := true },
        Except.ok (SignonSeedExchangeResponse.serverSeed data)) := by
  simp [Signon.handleSeedExchangeResponse, h, h2]

/-- Characterization of the phase-2 handler on a short reply. -/
theorem hirShort (sys : SystemState) (data : List Nat) (h : data.length < 24) :
    Signon.handleInfoResponse sys data =
      Except.error ("Invalid info response received from " ++ sys.hostName) := by
  simp [Signon.handleInfoResponse, h]

/-- Characterization of the phase-2 handler on a rejected reply. -/
theorem hirReject (sys : SystemState) (data : List Nat) (h : ¬ data.length < 24)
    (h2 : SignonInfoResponse.rc data ≠ 0) :
    Signon.handleInfoResponse sys data =
      Except.error ("Error received during signon info with " ++ sys.hostName ++ " : "
        ++ SignonErrors.get (SignonInfoResponse.rc data)) := by
  simp [Signon.handleInfoResponse, h, h2]

/-- Characterization of the phase-2 handler on a successful reply. -/
theorem hirOk (sys : SystemState) (data : List Nat) (h : ¬ data.length < 24)
    (h2 : SignonInfoResponse.rc data = 0) :
    Signon.handleInfoResponse sys data =
      Except.ok
        { serverCCSID := SignonInfoResponse.serverCCSID data,
          currentSignonDate := SignonInfoResponse.currentSignonDate data,
          lastSignonDate := SignonInfoResponse.lastSignonDate data,
          passwordExpirationDate := SignonInfoResponse.passwordExpirationDate data,
          expirationWarning := SignonInfoResponse.expirationWarning data,
          userId := SignonInfoResponse.userId data } := by
  simp [Signon.handleInfoResponse, h, h2]

/-- Characterization of a run whose connection attempt fails. -/
theorem signonRun_conn_error (sys : SystemState) (inp : SignonInput) (e : String)
    (h : inp.connectOk = Except.error e) :
    signonRun sys inp = ([], Except.error e) := by
  simp [signonRun, h]

/-- Characterization of a run whose seed-exchange reply fails the handler. -/
theorem signonRun_seed_fail (sys : SystemState) (inp : SignonInput) (e : String)
    (hconn : inp.connectOk = Except.ok ())
    (h : (Signon.handleSeedExchangeResponse sys inp.seedReply).2 = Except.error e) :
    signonRun sys inp =
      ([Event.connect, Event.sendSeedRequest inp.clientSeed], Except.error e) := by
  simp only [signonRun, hconn]
  split
  · next e2 heq =>
      rw [h] at heq
      cases heq
      rfl
  · next ss heq =>
      rw [h] at heq
      cases heq

/-- Characterization of a run whose seed exchange succeeds: the trace records
the connect, the seed-request send, the encryptor invocation and the
info-request send, and the outcome is the phase-2 handler's outcome on the
updated system state. -/
theorem signonRun_seed_ok (sys : SystemState) (inp : SignonInput)
    (hlen : ¬ inp.seedReply.length < 24)
    (hrc : SignonSeedExchangeResponse.rc inp.seedReply = 0)
    (hconn : inp.connectOk = Except.ok ()) :
    signonRun sys inp =
      ([Event.connect, Event.sendSeedRequest inp.clientSeed,
        Event.encrypt (SignonSeedExchangeResponse.passwordLevel inp.seedReply)
          sys.userId sys.password inp.clientSeed
          (SignonSeedExchangeResponse.serverSeed inp.seedReply),
        Event.sendInfoRequest sys.userId
          (PasswordEncryptor.encrypt (SignonSeedExchangeResponse.passwordLevel inp.seedReply)
            sys.userId sys.password inp.clientSeed
            (SignonSeedExchangeResponse.serverSeed inp.seedReply))
          (SignonSeedExchangeResponse.serverLevel inp.seedReply)],
       Signon.handleInfoResponse
         { sys with
            serverLevel := SignonSeedExchangeResponse.serverLevel inp.seedReply,
            serverVersion := SignonSeedExchangeResponse.serverVersion inp.seedReply,
            passwordLevel := SignonSeedExchangeResponse.passwordLevel inp.seedReply,
            passwordAttributesSet := true }
         inp.infoReply) := by
  have hup := hseOk sys inp.seedReply hlen hrc
  simp only [signonRun, hconn, hup]
  cases hinfo : Signon.handleInfoResponse
      { sys with
          serverLevel := SignonSeedExchangeResponse.serverLevel inp.seedReply,
          serverVersion := SignonSeedExchangeResponse.serverVersion inp.seedReply,
          passwordLevel := SignonSeedExchangeResponse.passwordLevel inp.seedReply,
          passwordAttributesSet := true }
      inp.infoReply <;>
    simp [hinfo]

/-- C1: every info reply of length ≥ 24 whose status code is 0 resolves with the
session-attributes object, which by construction has exactly the six documented
fields (serverCCSID, currentSignonDate, lastSignonDate, passwordExpirationDate,
expirationWarning, userId); the userId is the one extracted from the reply frame,
and the userId that was sent in the request has no influence on the result. -/
theorem info_status0_resolves_sessionAttributes (sys : SystemState) (data : List Nat)
    (hlen : 24 ≤ data.length) (hrc : SignonInfoResponse.rc data = 0) :
    Signon.handleInfoResponse sys data =
      Except.ok
        { serverCCSID := SignonInfoResponse.serverCCSID data,
          currentSignonDate := SignonInfoResponse.currentSignonDate data,
          lastSignonDate := SignonInfoResponse.lastSignonDate data,
          passwordExpirationDate := SignonInfoResponse.passwordExpirationDate data,
          expirationWarning := SignonInfoResponse.expirationWarning data,
          userId := SignonInfoResponse.userId data } ∧
    ∀ requestUserId : String,
      Signon.handleInfoResponse { sys with userId := requestUserId } data =
        Signon.handleInfoResponse sys data := by
  constructor
  · exact hirOk sys data (by omega) hrc
  · intro u
    rfl

/-- Witness for C1 at a concrete reply carrying user id ALICE. -/
theorem info_status0_resolves_sessionAttributes_witness :
    Signon.handleInfoResponse sampleSys sampleInfoOk =
      Except.ok
        { serverCCSID := 0, currentSignonDate := [0, 0, 0, 0, 0, 0, 0, 0],
          lastSignonDate := [0, 0, 0, 0, 0, 0, 0, 0],
          passwordExpirationDate := [0, 0, 0, 0, 0, 0, 0, 0],
          expirationWarning := 0, userId := [65, 76, 73, 67, 69] } := by
  rw [(info_status0_resolves_sessionAttributes sampleSys sampleInfoOk
    (by decide) (by decide)).1]
  rfl

/-- C2: every seed-exchange reply of length ≥ 24 whose status code is 0 updates
the negotiation state so that serverLevel, serverVersion and passwordLevel hold
the extracted values and passwordAttributesSet is true, and resolves with the
extracted server seed (the success value has type `List Nat`, a seed — the
handler never produces a `SessionAttributes`). -/
theorem seedExchange_status0_updates_negotiation (sys : SystemState) (data : List Nat)
    (hlen : 24 ≤ data.length) (hrc : SignonSeedExchangeResponse.rc data = 0) :
    Signon.handleSeedExchangeResponse sys data =
      ({ sys with
          serverLevel := SignonSeedExchangeResponse.serverLevel data,
          serverVersion := SignonSeedExchangeResponse.serverVersion data,
          passwordLevel := SignonSeedExchangeResponse.passwordLevel data,
          passwordAttributesSet := true },
        Except.ok (SignonSeedExchangeResponse.serverSeed data)) :=
  hseOk sys data (by omega) hrc

/-- Witness for C2 at a concrete reply. -/
theorem seedExchange_status0_updates_negotiation_witness :
    Signon.handleSeedExchangeResponse sampleSys sampleSeedOk =
      ({ sampleSys with
          serverLevel := 5, serverVersion := 7, passwordLevel := 2,
          passwordAttributesSet := true },
        Except.ok [9, 10, 11, 12, 13, 14, 15, 16]) := by
  rw [seedExchange_status0_updates_negotiation sampleSys sampleSeedOk
    (by decide) (by decide)]
  rfl

/-- C3: every inbound reply shorter than 24 bytes fails, in either phase, with
the framing-error message naming the remote host; the outcome does not depend on
the reply content (any two short replies give identical results — the reply is
never parsed). -/
theorem short_reply_framing_error (sys : SystemState) (d1 d2 : List Nat)
    (h1 : d1.length < 24) (h2 : d2.length < 24) :
    Signon.handleSeedExchangeResponse sys d1 =
      (sys, Except.error ("Invalid seed exchange response received from " ++ sys.hostName)) ∧
    Signon.handleInfoResponse sys d1 =
      Except.error ("Invalid info response received from " ++ sys.hostName) ∧
    Signon.handleSeedExchangeResponse sys d1 = Signon.handleSeedExchangeResponse sys d2 ∧
    Signon.handleInfoResponse sys d1 = Signon.handleInfoResponse sys d2 := by
  refine ⟨hseShort sys d1 h1, hirShort sys d1 h1, ?_, ?_⟩
  · rw [hseShort sys d1 h1, hseShort sys d2 h2]
  · rw [hirShort sys d1 h1, hirShort sys d2 h2]

/-- Witness for C3 at two concrete short replies of different content. -/
theorem short_reply_framing_error_witness :
    Signon.handleSeedExchangeResponse sampleSys [1, 2, 3] =
      (sampleSys, Except.error ("Invalid seed exchange response received from "
        ++ sampleSys.hostName)) ∧
    Signon.handleInfoResponse sampleSys [1, 2, 3] =
      Except.error ("Invalid info response received from " ++ sampleSys.hostName) ∧
    Signon.handleSeedExchangeResponse sampleSys [1, 2, 3] =
      Signon.handleSeedExchangeResponse sampleSys [] ∧
    Signon.handleInfoResponse sampleSys [1, 2, 3] =
      Signon.handleInfoResponse sampleSys [] :=
  short_reply_framing_error sampleSys [1, 2, 3] [] (by decide) (by decide)

/-- C10: a failing seed-exchange reply — shorter than 24 bytes, or carrying a
non-zero status code — leaves the negotiation state completely unchanged
(serverLevel, serverVersion, passwordLevel, passwordAttributesSet keep their
prior values), and the handler rejects. -/
theorem seedExchange_failure_state_unchanged (sys : SystemState) (data : List Nat)
    (h : data.length < 24 ∨ SignonSeedExchangeResponse.rc data ≠ 0) :
    (Signon.handleSeedExchangeResponse sys data).1 = sys ∧
    ∃ e, (Signon.handleSeedExchangeResponse sys data).2 = Except.error e := by
  by_cases hlen : data.length < 24
  · rw [hseShort sys data hlen]
    exact ⟨rfl, _, rfl⟩
  · have hrc : SignonSeedExchangeResponse.rc data ≠ 0 := by tauto
    rw [hseReject sys data hlen hrc]
    exact ⟨rfl, _, rfl⟩

/-- Witness for C10 at a concrete rejected reply with mutated prior state. -/
theorem seedExchange_failure_state_unchanged_witness :
    (Signon.handleSeedExchangeResponse sampleSys sampleSeedErr).1 = sampleSys :=
  (seedExchange_failure_state_unchanged sampleSys sampleSeedErr
    (Or.inr (by decide))).1

/-- C4: when connection succeeded and the seed-exchange reply carries a non-zero
status code, the run fails and the trace contains neither a password-encryptor
invocation nor an info-request send: signon fails before any credential is
constructed. -/
theorem signon_seed_reject_no_credential (sys : SystemState) (inp : SignonInput)
    (hconn : inp.connectOk = Except.ok ())
    (hrc : SignonSeedExchangeResponse.rc inp.seedReply ≠ 0) :
    (∃ e, (signonRun sys inp).2 = Except.error e) ∧
    ∀ ev ∈ (signonRun sys inp).1, ev.isEncrypt = false ∧ ev.isInfoSend = false := by
  have hrun : ∃ e, signonRun sys inp =
      ([Event.connect, Event.sendSeedRequest inp.clientSeed], Except.error e) := by
    by_cases hlen : inp.seedReply.length < 24
    · exact ⟨_, signonRun_seed_fail sys inp _ hconn
        (by rw [hseShort sys inp.seedReply hlen])⟩
    · exact ⟨_, signonRun_seed_fail sys inp _ hconn
        (by rw [hseReject sys inp.seedReply hlen hrc])⟩
  obtain ⟨e, hrun⟩ := hrun
  rw [hrun]
  refine ⟨⟨e, rfl⟩, ?_⟩
  intro ev hev
  simp only [List.mem_cons, List.not_mem_nil, or_false] at hev
  rcases hev with h | h <;> subst h <;> exact ⟨rfl, rfl⟩

/-- Witness for C4 at a concrete rejected seed exchange: the first trace event
is the connect, which is neither an encryption nor an info send. -/
theorem signon_seed_reject_no_credential_witness :
    Event.isEncrypt Event.connect = false ∧ Event.isInfoSend Event.connect = false :=
  (signon_seed_reject_no_credential sampleSys sampleInpSeedErr rfl
    (by decide)).2 Event.connect (by decide)

/-- C5: the error taxonomy maps each of the five documented codes to its
specific message, maps every other code to the generic unknown-error message
(the lookup is a total function), and an info reply of length ≥ 24 with a
non-zero status code fails with a message that ends with — hence contains —
the taxonomy mapping of that code. -/
theorem signonErrors_taxonomy_total (sys : SystemState) (data : List Nat) :
    SignonErrors.get 0x00010008 = "Password length not valid" ∧
    SignonErrors.get 0x00020001 = "Unknown user ID" ∧
    SignonErrors.get 0x00020002 = "User ID is disabled" ∧
    SignonErrors.get 0x0003000B = "Incorrect password" ∧
    SignonErrors.get 0x0003000C =
      "Incorrect password, user ID will be disabled on the next incorrect password" ∧
    (∀ id : Nat,
      id ∉ ([0x00010008, 0x00020001, 0x00020002, 0x0003000B, 0x0003000C] : List Nat) →
      SignonErrors.get id = "Unknown error") ∧
    (24 ≤ data.length → SignonInfoResponse.rc data ≠ 0 →
      Signon.handleInfoResponse sys data =
        Except.error ("Error received during signon info with " ++ sys.hostName ++ " : "
          ++ SignonErrors.get (SignonInfoResponse.rc data))) := by
  refine ⟨rfl, rfl, rfl, rfl, rfl, ?_, ?_⟩
  · intro id hid
    simp only [List.mem_cons, List.not_mem_nil, or_false, not_or] at hid
    obtain ⟨h1, h2, h3, h4, h5⟩ := hid
    simp [SignonErrors.get, h1, h2, h3, h4, h5]
  · intro hlen hrc
    exact hirReject sys data (by omega) hrc

/-- Witness for C5: an unrecognized code degrades to the generic message, and
the concrete info reply with status 0x0003000B fails naming the incorrect
password. -/
theorem signonErrors_taxonomy_total_witness :
    SignonErrors.get 11 = "Unknown error" ∧
    Signon.handleInfoResponse sampleSys sampleInfoErr =
      Except.error "Error received during signon info with myhost : Incorrect password" := by
  have h := signonErrors_taxonomy_total sampleSys sampleInfoErr
  refine ⟨h.2.2.2.2.2.1 11 (by decide), ?_⟩
  rw [h.2.2.2.2.2.2 (by decide) (by decide)]
  rfl

/-- C6: every seed-exchange reply of length ≥ 24 with a non-zero status code
fails with the message reporting the seed-exchange error for the host and the
raw numeric code; the message decomposes so that it contains the remote host
name and the decimal rendering of the status code. -/
theorem seedExchange_reject_message (sys : SystemState) (data : List Nat)
    (hlen : 24 ≤ data.length) (hrc : SignonSeedExchangeResponse.rc data ≠ 0) :
    Signon.handleSeedExchangeResponse sys data =
      (sys, Except.error ("Error received during signon seed exchange with " ++ sys.hostName
        ++ " : " ++ toString (SignonSeedExchangeResponse.rc data))) ∧
    ∃ a b : String,
      "Error received during signon seed exchange with " ++ sys.hostName
        ++ " : " ++ toString (SignonSeedExchangeResponse.rc data)
        = a ++ sys.hostName ++ b ++ toString (SignonSeedExchangeResponse.rc data) := by
  refine ⟨hseReject sys data (by omega) hrc,
    "Error received during signon seed exchange with ", " : ", rfl⟩

/-- Witness for C6 at a concrete rejected reply with status code 1. -/
theorem seedExchange_reject_message_witness :
    Signon.handleSeedExchangeResponse sampleSys sampleSeedErr =
      (sampleSys, Except.error "Error received during signon seed exchange with myhost : 1") := by
  rw [(seedExchange_reject_message sampleSys sampleSeedErr (by decide) (by decide)).1]
  rfl

/-- Characterization of a run whose seed exchange fails for any reason (short
reply or non-zero status): the trace ends at the seed-request send. -/
theorem signonRun_seed_notok (sys : SystemState) (inp : SignonInput)
    (hconn : inp.connectOk = Except.ok ())
    (h : ¬ (¬ inp.seedReply.length < 24 ∧ SignonSeedExchangeResponse.rc inp.seedReply = 0)) :
    ∃ e, signonRun sys inp =
      ([Event.connect, Event.sendSeedRequest inp.clientSeed], Except.error e) := by
  by_cases hlen : inp.seedReply.length < 24
  · exact ⟨_, signonRun_seed_fail sys inp _ hconn
      (by rw [hseShort sys inp.seedReply hlen])⟩
  · have hrc : SignonSeedExchangeResponse.rc inp.seedReply ≠ 0 := by tauto
    exact ⟨_, signonRun_seed_fail sys inp _ hconn
      (by rw [hseReject sys inp.seedReply hlen hrc])⟩

/-- The trace of a run is one of three lists: empty (connect failed), two
events (seed exchange failed), or the full four events of a seed exchange that
succeeded. -/
theorem signonRun_trace_cases (sys : SystemState) (inp : SignonInput) :
    (signonRun sys inp).1 = [] ∨
    (signonRun sys inp).1 = [Event.connect, Event.sendSeedRequest inp.clientSeed] ∨
    (signonRun sys inp).1 =
      [Event.connect, Event.sendSeedRequest inp.clientSeed,
       Event.encrypt (SignonSeedExchangeResponse.passwordLevel inp.seedReply)
         sys.userId sys.password inp.clientSeed
         (SignonSeedExchangeResponse.serverSeed inp.seedReply),
       Event.sendInfoRequest sys.userId
         (PasswordEncryptor.encrypt (SignonSeedExchangeResponse.passwordLevel inp.seedReply)
           sys.userId sys.password inp.clientSeed
           (SignonSeedExchangeResponse.serverSeed inp.seedReply))
         (SignonSeedExchangeResponse.serverLevel inp.seedReply)] := by
  cases hc : inp.connectOk with
  | error e =>
      left
      rw [signonRun_conn_error sys inp e hc]
  | ok un =>
      cases un
      by_cases hok : ¬ inp.seedReply.length < 24 ∧
          SignonSeedExchangeResponse.rc inp.seedReply = 0
      · right; right
        rw [signonRun_seed_ok sys inp hok.1 hok.2 hc]
      · obtain ⟨e, hrun⟩ := signonRun_seed_notok sys inp hc hok
        right; left
        rw [hrun]

/-- C7: whenever a password-encryptor invocation appears in the trace of a run,
the seed exchange succeeded (reply length ≥ 24, status 0) and the system state
produced by the phase-1 handler — the state the encryption reads — has
passwordAttributesSet true: credential encryption is never attempted before
passwordAttributesSet is set. -/
theorem signon_encrypt_after_passwordAttributesSet (sys : SystemState) (inp : SignonInput)
    (ev : Event) (hev : ev ∈ (signonRun sys inp).1) (henc : ev.isEncrypt = true) :
    24 ≤ inp.seedReply.length ∧ SignonSeedExchangeResponse.rc inp.seedReply = 0 ∧
    (Signon.handleSeedExchangeResponse sys inp.seedReply).1.passwordAttributesSet = true := by
  cases hc : inp.connectOk with
  | error e =>
      rw [signonRun_conn_error sys inp e hc] at hev
      exact absurd hev (List.not_mem_nil ev)
  | ok un =>
      cases un
      by_cases hok : ¬ inp.seedReply.length < 24 ∧
          SignonSeedExchangeResponse.rc inp.seedReply = 0
      · obtain ⟨hlen, hrc⟩ := hok
        refine ⟨by omega, hrc, ?_⟩
        rw [hseOk sys inp.seedReply hlen hrc]
      · obtain ⟨e, hrun⟩ := signonRun_seed_notok sys inp hc hok
        rw [hrun] at hev
        simp only [List.mem_cons, List.not_mem_nil, or_false] at hev
        rcases hev with h | h <;> subst h <;> simp [Event.isEncrypt] at henc

/-- Witness for C7 at the concrete successful run: its trace contains an
encryptor invocation, so the phase-1 state has the flag set. -/
theorem signon_encrypt_after_passwordAttributesSet_witness :
    24 ≤ sampleInpOk.seedReply.length ∧
    SignonSeedExchangeResponse.rc sampleInpOk.seedReply = 0 ∧
    (Signon.handleSeedExchangeResponse sampleSys
      sampleInpOk.seedReply).1.passwordAttributesSet = true :=
  signon_encrypt_after_passwordAttributesSet sampleSys sampleInpOk
    (Event.encrypt 2 "USER" "PW" [1, 2, 3, 4, 5, 6, 7, 8]
      [9, 10, 11, 12, 13, 14, 15, 16])
    (by decide) (by decide)

/-- C8: every password-encryptor invocation in a run's trace carries exactly
the negotiated password level extracted from the phase-1 reply, the client seed
stored when the seed-exchange request was built, and the server seed produced
by phase 1 — and the info request that follows carries the credential blob the
encryptor produced from those arguments. -/
theorem signon_encrypt_arguments (sys : SystemState) (inp : SignonInput)
    (lvl : Nat) (u p : String) (cs ss : List Nat)
    (hev : Event.encrypt lvl u p cs ss ∈ (signonRun sys inp).1) :
    lvl = SignonSeedExchangeResponse.passwordLevel inp.seedReply ∧
    cs = inp.clientSeed ∧
    ss = SignonSeedExchangeResponse.serverSeed inp.seedReply ∧
    Event.sendInfoRequest u (PasswordEncryptor.encrypt lvl u p cs ss)
      (SignonSeedExchangeResponse.serverLevel inp.seedReply) ∈ (signonRun sys inp).1 := by
  cases hc : inp.connectOk with
  | error e =>
      rw [signonRun_conn_error sys inp e hc] at hev
      exact absurd hev (List.not_mem_nil _)
  | ok un =>
      cases un
      by_cases hok : ¬ inp.seedReply.length < 24 ∧
          SignonSeedExchangeResponse.rc inp.seedReply = 0
      · obtain ⟨hlen, hrc⟩ := hok
        rw [signonRun_seed_ok sys inp hlen hrc hc] at hev ⊢
        simp only [List.mem_cons, List.not_mem_nil, or_false] at hev
        rcases hev with h | h | h | h
        · exact absurd h (by simp)
        · exact absurd h (by simp)
        · rw [Event.encrypt.injEq] at h
          obtain ⟨h1, h2, h3, h4, h5⟩ := h
          subst h1; subst h2; subst h3; subst h4; subst h5
          exact ⟨rfl, rfl, rfl, by simp⟩
        · exact absurd h (by simp)
      · obtain ⟨e, hrun⟩ := signonRun_seed_notok sys inp hc hok
        rw [hrun] at hev
        simp at hev

/-- Witness for C8 at the concrete successful run. -/
theorem signon_encrypt_arguments_witness :
    2 = SignonSeedExchangeResponse.passwordLevel sampleInpOk.seedReply ∧
    [1, 2, 3, 4, 5, 6, 7, 8] = sampleInpOk.clientSeed ∧
    [9, 10, 11, 12, 13, 14, 15, 16] =
      SignonSeedExchangeResponse.serverSeed sampleInpOk.seedReply ∧
    Event.sendInfoRequest "USER"
      (PasswordEncryptor.encrypt 2 "USER" "PW" [1, 2, 3, 4, 5, 6, 7, 8]
        [9, 10, 11, 12, 13, 14, 15, 16])
      (SignonSeedExchangeResponse.serverLevel sampleInpOk.seedReply)
      ∈ (signonRun sampleSys sampleInpOk).1 :=
  signon_encrypt_arguments sampleSys sampleInpOk 2 "USER" "PW"
    [1, 2, 3, 4, 5, 6, 7, 8] [9, 10, 11, 12, 13, 14, 15, 16] (by decide)

/-- C9: every run has exactly one outcome (it resolves with session attributes
precisely when it does not fail), a connect failure propagates unmodified with
an empty trace, a phase-1 or phase-2 handler rejection propagates its error
unmodified, and the trace never sends the seed-exchange request or the info
request more than once (no retry). -/
theorem signon_single_outcome_propagation (sys : SystemState) (inp : SignonInput) :
    ((∃ a, (signonRun sys inp).2 = Except.ok a) ↔
      ¬ ∃ e, (signonRun sys inp).2 = Except.error e) ∧
    (∀ e, inp.connectOk = Except.error e → signonRun sys inp = ([], Except.error e)) ∧
    (∀ e, inp.connectOk = Except.ok () →
      (Signon.handleSeedExchangeResponse sys inp.seedReply).2 = Except.error e →
      (signonRun sys inp).2 = Except.error e) ∧
    (∀ e ss, inp.connectOk = Except.ok () →
      (Signon.handleSeedExchangeResponse sys inp.seedReply).2 = Except.ok ss →
      Signon.handleInfoResponse (Signon.handleSeedExchangeResponse sys inp.seedReply).1
        inp.infoReply = Except.error e →
      (signonRun sys inp).2 = Except.error e) ∧
    (signonRun sys inp).1.countP (fun ev => ev.isSeedSend) ≤ 1 ∧
    (signonRun sys inp).1.countP (fun ev => ev.isInfoSend) ≤ 1 := by
  refine ⟨?_, ?_, ?_, ?_, ?_, ?_⟩
  · cases h : (signonRun sys inp).2 <;> simp [h]
  · intro e h
    exact signonRun_conn_error sys inp e h
  · intro e hconn h
    rw [signonRun_seed_fail sys inp e hconn h]
  · intro e ss hconn hss hinfo
    by_cases hlen : inp.seedReply.length < 24
    · rw [hseShort sys inp.seedReply hlen] at hss
      simp at hss
    · by_cases hrc : SignonSeedExchangeResponse.rc inp.seedReply = 0
      · rw [hseOk sys inp.seedReply hlen hrc] at hinfo
        rw [signonRun_seed_ok sys inp hlen hrc hconn]
        exact hinfo
      · rw [hseReject sys inp.seedReply hlen hrc] at hss
        simp at hss
  · rcases signonRun_trace_cases sys inp with h | h | h <;>
      rw [h] <;> simp [List.countP_cons, Event.isSeedSend]
  · rcases signonRun_trace_cases sys inp with h | h | h <;>
      rw [h] <;> simp [List.countP_cons, Event.isInfoSend]

/-- Witness for C9 at the concrete run whose connection attempt fails. -/
theorem signon_single_outcome_propagation_witness :
    signonRun sampleSys sampleInpConnFail = ([], Except.error "boom") :=
  (signon_single_outcome_propagation sampleSys sampleInpConnFail).2.1 "boom" rfl

end Ibmi
